import Mathlib

/-!
Verification of the canonical-ABI marshaling engine of the JS bindings
generator (crates/js).  The definitions below are a shallow embedding of
`crates/js/src/lib.rs` (type classifier, helper-emission scan, export
binding generation, marshaled-wrapper semantics) and of the runtime helper
strings in `crates/js/src/js_wrapper.rs` (`wasm_wrapper_encode_str`,
`wasm_wrapper_decode_str`, `wasm_wrapper_store_list`,
`wasm_wrapper_load_list`).
-/

namespace JsGen

/-- The resolved type descriptors of `wit_parser::Type` as they are consumed
by the generator: the primitive scalar kinds, `String`, and `Id` for every
compound/nominal type (an index into the resolve table). -/
inductive WitType where
  | Bool | Char
  | Float32 | Float64
  | S8 | S16 | S32 | S64
  | U8 | U16 | U32 | U64
  | String
  | Id (i : Nat)
deriving DecidableEq, Repr

/-- `wit_parser::Results`: a single anonymous result type or named results. -/
inductive Results where
  | anon (t : WitType)
  | named (rs : List (String × WitType))
deriving DecidableEq, Repr

/-- A function signature: ordered named parameters plus results
(`wit_parser::Function`, restricted to the fields the generator reads). -/
structure Func where
  params : List (String × WitType)
  results : Results
deriving DecidableEq, Repr

/-- `is_primary_type` from `crates/js/src/lib.rs` (lines 149-157): the
primitive scalar kinds are primary; `String` and `Type::Id` fall into the
catch-all `false` arm. -/
def is_primary_type : WitType → Bool
  | .Bool | .Char
  | .Float32 | .Float64
  | .S8 | .S16 | .S32 | .S64
  | .U8 | .U16 | .U32 | .U64 => true
  | _ => false

/-- The result types of a signature in order (the anonymous single result,
or each named result). -/
def resultTypes : Results → List WitType
  | .anon t => [t]
  | .named rs => rs.map Prod.snd

/-- All parameter types followed by all result types of a signature. -/
def funcTypes (f : Func) : List WitType :=
  f.params.map Prod.snd ++ resultTypes f.results

/-- The per-function classification computed in `export_funcs`
(`crates/js/src/lib.rs` lines 250-271): scan the parameters, breaking at the
first non-primary type; only if all parameters were primary, scan the result
type(s) the same way.  `true` is the `Scalar` classification (fast path),
`false` is `Marshaled`. -/
def is_primary_func (f : Func) : Bool :=
  if f.params.all (fun p => is_primary_type p.2) then
    match f.results with
    | .anon t => is_primary_type t
    | .named rs => rs.all (fun p => is_primary_type p.2)
  else false

/-- The primitive scalar kinds, as the spec enumerates them. -/
def scalarKinds : List WitType :=
  [.Bool, .Char, .Float32, .Float64,
   .S8, .S16, .S32, .S64, .U8, .U16, .U32, .U64]

/-- JavaScript loose equality (`==`) between the `size` variable of
`wasm_wrapper_store_list` — which at that point holds either a number or
`undefined`, modelled as `Option Nat` — and a string literal.  `undefined ==
s` is `false`; a number compared with a string coerces the string to a
number, and the literals compared (`"U32"`, `"U64"`) are not numeric, so the
coercion yields `NaN` and the comparison is `false`.  `jsStringToNumber`
models `Number(s)` on the relevant (non-negative integer literal) strings,
with `none` for `NaN`. -/
def jsStringToNumber (s : String) : Option Nat :=
  if s.data ≠ [] && s.data.all (fun c => c.isDigit) then
    some (s.data.foldl (fun n c => n * 10 + (c.toNat - 48)) 0)
  else none

/-- The `==` comparison itself: see `jsStringToNumber` above. -/
def jsLooseEqNumStr (v : Option Nat) (s : String) : Bool :=
  match v, jsStringToNumber s with
  | some n, some m => n == m
  | _, _ => false

/-- The `size`/`align` computation of `wasm_wrapper_store_list`
(`crates/js/src/js_wrapper.rs` lines 90-108), as the sequence of four
independent `if` statements in the source, with `none` for the JS
`undefined` the two `let` declarations start from.  The third and fourth
guards compare `size` (not `type`) against `"U32"` / `"U64"`, exactly as
the source does. -/
def storeListSizeAlign (ty : String) (len : Nat) : Option Nat × Option Nat :=
  let size : Option Nat := none
  let align : Option Nat := none
  let (size, align) :=
    if ty == "U8" || ty == "S8" || ty == "Bool" then (some len, some 1)
    else (size, align)
  let (size, align) :=
    if ty == "U16" || ty == "S16" then (some (len * 2), some 2)
    else (size, align)
  let (size, align) :=
    if jsLooseEqNumStr size "U32" || ty == "S32" || ty == "Char" ||
        ty == "Float32" then (some (len * 4), some 4)
    else (size, align)
  let (size, align) :=
    if jsLooseEqNumStr size "U64" || ty == "S64" || ty == "Float64" then
      (some (len * 8), some 8)
    else (size, align)
  (size, align)

/-- The arguments `wasm_wrapper_store_list` passes to the allocator:
`ptr = wasm_export_realloc(0, 0, align, len)` (`js_wrapper.rs` line 110),
i.e. the computed `align` (possibly still `undefined`) and — as the byte
count — the element count `len`, not the computed `size`. -/
def storeListAllocArgs (ty : String) (len : Nat) : Option Nat × Nat :=
  ((storeListSizeAlign ty len).2, len)

/-- The Size/Align Table entry for each list element kind, as the spec's
Size/Align Table gives it: 1-byte kinds 1/1, 16-bit kinds 2/2, 32-bit kinds
with `Char` and `Float32` 4/4, 64-bit kinds with `Float64` 8/8. -/
def elemSizeAlign : String → Option (Nat × Nat)
  | "U8" | "S8" | "Bool" => some (1, 1)
  | "U16" | "S16" => some (2, 2)
  | "U32" | "S32" | "Char" | "Float32" => some (4, 4)
  | "U64" | "S64" | "Float64" => some (8, 8)
  | _ => none

/-- The typed-array constructor name `wasm_wrapper_store_list` references to
build the element view over linear memory (`js_wrapper.rs` lines 112-142).
The guards of the source's `if` cascade are mutually exclusive string
comparisons on `type`, so the cascade selects at most one name. -/
def storeListViewCtor (ty : String) : Option String :=
  if ty == "S8" then some "Int8Array"
  else if ty == "U8" || ty == "Bool" then some "Uint8Array"
  else if ty == "S16" then some "Int16Array"
  else if ty == "U16" then some "Uint16Array"
  else if ty == "S32" then some "Int32Array"
  else if ty == "U32" || ty == "Char" then some "Uint32Array"
  else if ty == "S64" then some "Int64Array"
  else if ty == "U64" then some "Uint64Array"
  else if ty == "Float32" then some "Float32Array"
  else if ty == "Float64" then some "Float64Array"
  else none

/-- The typed-array constructor name `wasm_wrapper_load_list` references for
both the fresh result array and the view over linear memory
(`js_wrapper.rs` lines 41-80); same dispatch as the store helper. -/
def loadListViewCtor (ty : String) : Option String :=
  storeListViewCtor ty

/-- The typed-array constructors the JavaScript environment actually
defines.  64-bit element arrays are `BigInt64Array` / `BigUint64Array`;
`Int64Array` and `Uint64Array` are not JavaScript globals. -/
def jsGlobalTypedArrays : List String :=
  ["Int8Array", "Uint8Array", "Uint8ClampedArray", "Int16Array",
   "Uint16Array", "Int32Array", "Uint32Array", "BigInt64Array",
   "BigUint64Array", "Float32Array", "Float64Array"]

/-- JavaScript values crossing the wrapper boundary. -/
inductive JsValue where
  | num (n : Int)
  | str (s : String)
  | bool (b : Bool)
  | undefined
  | obj
deriving DecidableEq, Repr

/-- Observable events of a generated-wrapper run, in execution order:
allocator requests (`wasm_export_realloc(origPtr, origSize, align, size)`),
the call of the underlying export with the flattened argument list, the
UTF-8 decode of a byte range, and the release-hook call. -/
inductive Event where
  | allocReq (origPtr origSize align size : Nat)
  | callExport (name : String) (args : List JsValue)
  | decodeStr (bytes : List Nat)
  | postReturn (hookName : String) (handle : Int)
deriving DecidableEq, Repr

/-- Runtime state threaded through a wrapper call: the module's linear
memory (byte at each address) and the event trace so far. -/
structure RtState where
  mem : Nat → Nat
  trace : List Event

/-- Runtime failures the generated code can raise: `TypeError` from
`wasm_wrapper_encode_str`, `ReferenceError` from reading an undeclared
variable, `RangeError` from a `DataView`/typed-array access with a negative
index. -/
inductive RtError where
  | typeError
  | referenceError (name : String)
  | rangeError
deriving DecidableEq, Repr

/-- The UTF-8 encoding of a string as byte values
(`wasm_wrapper_text_encoder.encode(str)`); the byte list underlying
`String.toUTF8`, which core defines as `a.data.flatMap utf8EncodeChar`. -/
def utf8Bytes (s : String) : List Nat :=
  (s.data.flatMap String.utf8EncodeChar).map (fun b => b.toNat)

/-- Write a byte sequence into linear memory starting at `p`
(`view.set(encoded)` on a `Uint8Array` of the region). -/
def writeBytes : (Nat → Nat) → Nat → List Nat → (Nat → Nat)
  | mem, _, [] => mem
  | mem, p, b :: bs => writeBytes (fun a => if a = p then b else mem a) (p + 1) bs

/-- Read `n` bytes of linear memory starting at `p` (a `Uint8Array` view of
the region; each cell is a byte, hence the `% 256`). -/
def readBytes (mem : Nat → Nat) : Nat → Nat → List Nat
  | _, 0 => []
  | p, n + 1 => mem p % 256 :: readBytes mem (p + 1) n

/-- The unsigned little-endian 4-byte word at address `a`. -/
def getUint32LE (mem : Nat → Nat) (a : Nat) : Nat :=
  mem a % 256 + 256 * (mem (a + 1) % 256) + 65536 * (mem (a + 2) % 256) +
    16777216 * (mem (a + 3) % 256)

/-- `new DataView(memory.buffer).getInt32(a, true)`: the little-endian
4-byte word at `a`, as a signed 32-bit integer. -/
def getInt32LE (mem : Nat → Nat) (a : Nat) : Int :=
  let w := getUint32LE mem a
  if w < 2 ^ 31 then (w : Int) else (w : Int) - 2 ^ 32

/-- The per-module handles the generated code captures once per
instantiation: the allocator export `cabi_realloc` (pure response to a
request; the wrapper itself performs the copy), the underlying wasm export
being wrapped (arguments and memory in, numeric result and memory out), the
export-object lookup used for `wasm_instance.exports["cabi_post_..."]`, and
the captured `TextDecoder`. -/
structure ModuleInstance where
  realloc : Nat → Nat → Nat → Nat → Nat
  func : List JsValue → (Nat → Nat) → Int × (Nat → Nat)
  hasExport : String → Bool
  decode : List Nat → String

/-- `wasm_wrapper_encode_str` (`crates/js/src/js_wrapper.rs` lines 6-25,
emitted identically by `export_funcs` in `lib.rs` lines 213-236): reject
non-string input with a `TypeError`; return the fixed sentinel pair
`{ptr: 1, len: 0}` for the empty string without touching the allocator;
otherwise UTF-8-encode, request `len` bytes at alignment 1 via
`wasm_export_realloc(0, 0, 1, len)`, and copy the bytes to the returned
pointer.  (JS `str.length` counts UTF-16 units; it is zero exactly for the
empty string, which is what the branch tests.) -/
def wasm_wrapper_encode_str (realloc : Nat → Nat → Nat → Nat → Nat)
    (v : JsValue) (st : RtState) : Except RtError (Nat × Nat) × RtState :=
  match v with
  | .str s =>
    if s.length = 0 then (.ok (1, 0), st)
    else
      let bs := utf8Bytes s
      let len := bs.length
      let ptr := realloc 0 0 1 len
      (.ok (ptr, len),
       ⟨writeBytes st.mem ptr bs, st.trace ++ [.allocReq 0 0 1 len]⟩)
  | _ => (.error .typeError, st)

/-- The per-parameter shape of a marshaled wrapper, as the generator's
parameter loop distinguishes them (`lib.rs` lines 286-302): a primary
scalar passed through in one slot, or a string lowered to two slots. -/
inductive ParamPlan where
  | scalar
  | string
deriving DecidableEq, Repr

/-- The result shape of a marshaled wrapper (`lib.rs` lines 313-335): a
single anonymous primary scalar (for which the generator emits no lifting
code at all), or a single anonymous string (for which it emits the
two-word read and the decode). -/
inductive ResultPlan where
  | scalar
  | string
deriving DecidableEq, Repr

/-- Argument lowering of a marshaled wrapper, parameter by parameter in
declaration order (`lib.rs` lines 286-302 as executed by the generated
code): a scalar parameter contributes its value as one flattened slot; a
string parameter is passed through `wasm_wrapper_encode_str` and
contributes `ptr` then `len` as two consecutive slots.  A JS call with
fewer arguments than parameters binds the missing ones to `undefined`.
`consSlot` prepends one slot to the result of lowering the remaining
parameters, propagating an exception unchanged. -/
def consSlot (v : JsValue) :
    Except RtError (List JsValue) × RtState →
    Except RtError (List JsValue) × RtState
  | (.ok rest, st) => (.ok (v :: rest), st)
  | (.error e, st) => (.error e, st)

/-- The lowering loop itself: see `consSlot` above. -/
def runLower (inst : ModuleInstance) :
    List ParamPlan → List JsValue → RtState →
    Except RtError (List JsValue) × RtState
  | [], _, st => (.ok [], st)
  | .scalar :: ps, vs, st =>
    consSlot (vs.headD .undefined) (runLower inst ps vs.tail st)
  | .string :: ps, vs, st =>
    match wasm_wrapper_encode_str inst.realloc (vs.headD .undefined) st with
    | (.ok (ptr, len), st') =>
      consSlot (.num ptr) (consSlot (.num len) (runLower inst ps vs.tail st'))
    | (.error e, st') => (.error e, st')

/-- Result lifting of a marshaled wrapper: the variables the lifting section
declares, plus the decode trace event.  For a scalar result the generator
emits nothing (`_ => ()` arm), so no variable is declared.  For a string
result (`lib.rs` lines 319-328) the wrapper reads two little-endian 4-byte
words at offsets 0 and 4 from the returned pointer with
`DataView.getInt32(..., true)` — data pointer first, then byte length —
and decodes that byte range with `wasm_wrapper_decode_str`
(`js_wrapper.rs` lines 27-34).  A negative index into the `DataView` or a
negative view offset/length throws a `RangeError`. -/
def liftResult (inst : ModuleInstance) (rp : ResultPlan) (res : Int)
    (st : RtState) : Except RtError (List (String × JsValue)) × RtState :=
  match rp with
  | .scalar => (.ok [], st)
  | .string =>
    if res < 0 then (.error .rangeError, st)
    else
      let a := res.toNat
      let p := getInt32LE st.mem a
      let l := getInt32LE st.mem (a + 4)
      if p < 0 ∨ l < 0 then (.error .rangeError, st)
      else
        let bytes := readBytes st.mem p.toNat l.toNat
        (.ok [("wasm_func_result_ptr", .num p), ("wasm_func_result_len", .num l),
              ("js_func_result", .str (inst.decode bytes))],
         ⟨st.mem, st.trace ++ [.decodeStr bytes]⟩)

/-- One call of the generated marshaled wrapper `wasm_export_<name>`
(`lib.rs` lines 280-348): lower the arguments, invoke the underlying export
with the flattened slots, lift the result, then look up
`exports["cabi_post_" + name]` and, if it exists, call it with the raw
result; finally execute `return js_func_result;` — which reads the
variable `js_func_result`, declared only by the string-result lifting
section, and otherwise throws a `ReferenceError`. -/
def runPlan (inst : ModuleInstance) (name : String) (pps : List ParamPlan)
    (rp : ResultPlan) (args : List JsValue) (st0 : RtState) :
    Except RtError JsValue × RtState :=
  match runLower inst pps args st0 with
  | (.error e, st1) => (.error e, st1)
  | (.ok slots, st1) =>
    match inst.func slots st1.mem with
    | (res, mem1) =>
      let st2 : RtState := ⟨mem1, st1.trace ++ [.callExport name slots]⟩
      match liftResult inst rp res st2 with
      | (.error e, st3) => (.error e, st3)
      | (.ok vars, st3) =>
        let st4 := if inst.hasExport ("cabi_post_" ++ name) then
            (⟨st3.mem, st3.trace ++ [.postReturn ("cabi_post_" ++ name) res]⟩ : RtState)
          else st3
        match vars.lookup "js_func_result" with
        | some v => (.ok v, st4)
        | none => (.error (.referenceError "js_func_result"), st4)

/-- Generation-time aborts: the `todo!(...)` panics of
`crates/js/src/lib.rs`, carrying the panic message. -/
inductive GenError where
  | notImplemented (msg : String)
deriving DecidableEq, Repr

/-- Parameter handling chosen by the wrapper generator (`lib.rs` lines
286-302): strings get the encode-and-two-slots treatment, `Type::Id`
panics `todo!("wrappaer for recursive types not implemented")`, and every
other (primary) type is passed through in one slot. -/
def planParam : WitType → Except GenError ParamPlan
  | .String => .ok .string
  | .Id _ => .error (.notImplemented "wrappaer for recursive types not implemented")
  | _ => .ok .scalar

/-- Result handling chosen by the wrapper generator (`lib.rs` lines
313-335): an anonymous `Type::Id` result and any named-results signature
panic with their respective `todo!` messages; an anonymous string result
gets the two-word read and decode; any other anonymous (primary) result
gets no lifting code. -/
def planResults : Results → Except GenError ResultPlan
  | .anon (.Id _) =>
    .error (.notImplemented "multiple returning recursive types not implemented")
  | .anon .String => .ok .string
  | .anon _ => .ok .scalar
  | .named _ =>
    .error (.notImplemented "multiple return values with recursive types not implemented")

/-- Parameter planning over the parameter list in declaration order; the
first unsupported parameter panics. -/
def planParams : List (String × WitType) → Except GenError (List ParamPlan)
  | [] => .ok []
  | p :: ps =>
    match planParam p.2 with
    | .error e => .error e
    | .ok pp =>
      match planParams ps with
      | .error e => .error e
      | .ok pps => .ok (pp :: pps)

/-- The marshaled-wrapper generation for one function: parameters first
(the source's parameter loop runs before the results are matched), then
the results. -/
def planWrapper (f : Func) : Except GenError (List ParamPlan × ResultPlan) :=
  match planParams f.params with
  | .error e => .error e
  | .ok pps =>
    match planResults f.results with
    | .error e => .error e
    | .ok rp => .ok (pps, rp)

/-- The binding emitted for one exported function (`lib.rs` lines
273-348): a direct reference to the underlying export for a `Scalar`
function, a generated wrapper otherwise. -/
inductive ExportBinding where
  | direct (name : String)
  | wrapper (name : String) (pps : List ParamPlan) (rp : ResultPlan)
deriving DecidableEq, Repr

/-- Generate the export binding for one function. -/
def exportBinding (name : String) (f : Func) : Except GenError ExportBinding :=
  if is_primary_func f then .ok (.direct name)
  else
    match planWrapper f with
    | .error e => .error e
    | .ok (pps, rp) => .ok (.wrapper name pps rp)

/-- The string-usage scan of `export_funcs` (`lib.rs` lines 161-193): walk
the export set accumulating `exist_string_as_param` /
`exist_string_as_result`, but `break` out of the loop as soon as either
flag is set.  Returns the two flags. -/
def scanStrings : List (String × Func) → Bool × Bool
  | [] => (false, false)
  | (_, f) :: rest =>
    let p := f.params.any (fun q => q.2 == WitType.String)
    let r := (resultTypes f.results).any (fun t => t == WitType.String)
    if p || r then (p, r) else scanStrings rest

/-- What `export_funcs` emits (`lib.rs` lines 134-357), at the level the
claims need: whether the memory handle, the encoder (realloc handle +
`TextEncoder` + `wasm_wrapper_encode_str`) and the decoder (`TextDecoder`
+ `wasm_wrapper_decode_str`) helper blocks are present, and the per-function
bindings. -/
structure ExportCode where
  emitMemory : Bool
  emitEncoder : Bool
  emitDecoder : Bool
  bindings : List ExportBinding
deriving Repr

/-- The per-function binding loop of `export_funcs`, in order; the first
function whose wrapper generation panics aborts the pass. -/
def exportBindings : List (String × Func) → Except GenError (List ExportBinding)
  | [] => .ok []
  | nf :: rest =>
    match exportBinding nf.1 nf.2 with
    | .error e => .error e
    | .ok b =>
      match exportBindings rest with
      | .error e => .error e
      | .ok bs => .ok (b :: bs)

/-- `export_funcs` itself: the scan decides the helper blocks
(memory iff either flag, encoder iff the param flag, decoder iff the
result flag), then each function gets its binding. -/
def export_funcs (funcs : List (String × Func)) : Except GenError ExportCode :=
  let ss := scanStrings funcs
  match exportBindings funcs with
  | .error e => .error e
  | .ok bs => .ok ⟨ss.1 || ss.2, ss.1, ss.2, bs⟩

/-- A resolved world as the generation driver walks it: imported
interfaces, top-level imported functions, exported functions, exported
interfaces, exported named type definitions. -/
structure World where
  name : String
  importInterfaces : List (String × List (String × Func))
  importFuncs : List (String × Func)
  exportFuncs : List (String × Func)
  exportInterfaces : List (String × List (String × Func))
  exportTypes : List (String × Nat)

/-- Modelled from the spec: the world-generation driver
(`wit_bindgen_core::generate`) lives in this repository's core crate,
outside `src/`; per §2 and §6 it brackets the pass — it visits the import
side (each imported interface via `import_interface`, which only emits
wiring text and cannot abort, and the top-level imported functions via
`import_funcs` when any exist), then the export side (`export_funcs`,
each exported interface via `export_interface`, and the exported type
definitions via `export_types` when any exist), and only then does
`finish` push the single output file.  The three handlers implemented in
`src/crates/js/src/lib.rs` as unconditional `todo!` panics
(`import_funcs`, lines 114-122; `export_interface`, lines 124-132;
`export_types`, lines 359-367) are the abort points; an abort anywhere
means no output file is produced. -/
def generateWorld (w : World) : Except GenError (String × ExportCode) :=
  if w.importFuncs.isEmpty then
    match export_funcs w.exportFuncs with
    | .error e => .error e
    | .ok code =>
      if w.exportInterfaces.isEmpty then
        if w.exportTypes.isEmpty then .ok (w.name ++ ".js", code)
        else .error (.notImplemented "export_types() not implemented")
      else .error (.notImplemented "export_interface() not implemented")
  else .error (.notImplemented "import_funcs() not implemented")

/-- Sequencing of two lowering computations: run the first; on success run
the continuation from the resulting state and append the slot lists. -/
def andThenSlots (r : Except RtError (List JsValue) × RtState)
    (k : RtState → Except RtError (List JsValue) × RtState) :
    Except RtError (List JsValue) × RtState :=
  match r with
  | (.ok s₁, st₁) =>
    (match k st₁ with
     | (.ok s₂, st₂) => (.ok (s₁ ++ s₂), st₂)
     | (.error e, st₂) => (.error e, st₂))
  | (.error e, st₁) => (.error e, st₁)

/-- A fresh runtime state for witnesses: zeroed memory, empty trace. -/
def rt0 : RtState := ⟨fun _ => 0, []⟩

/-- A module instance for the C5 witness: the allocator answers 100, the
export returns 0 and leaves memory unchanged, no release hook. -/
def inst5 : ModuleInstance :=
  ⟨fun _ _ _ _ => 100, fun _ m => (0, m), fun _ => false, fun _ => ""⟩

/-- Initial memory for the C6 witness. -/
def mem6 : Nat → Nat := fun _ => 0

/-- Memory after the C6 witness export ran: the return area at address 0
holds the little-endian words 8 (data pointer) and 1 (byte length, at
offset 4), and the byte 65 sits at address 8. -/
def mem6ret : Nat → Nat := fun a =>
  if a = 0 then 8 else if a = 4 then 1 else if a = 8 then 65 else 0

/-- A module instance for the C6 witness: the export returns handle 0 and
installs `mem6ret`; the release hook is exported; the captured decoder
returns `"A"`. -/
def inst6 : ModuleInstance :=
  ⟨fun _ _ _ _ => 0, fun _ _ => (0, mem6ret), fun _ => true, fun _ => "A"⟩

theorem is_primary_type_iff_mem (t : WitType) :
    is_primary_type t = true ↔ t ∈ scalarKinds := by
  cases t <;> simp [is_primary_type, scalarKinds]

theorem is_primary_func_iff (f : Func) :
    is_primary_func f = true ↔ ∀ t ∈ funcTypes f, is_primary_type t = true := by
  unfold is_primary_func funcTypes
  constructor
  · intro h t ht
    rcases List.mem_append.1 ht with hp | hr
    · split at h
      · next hall =>
        rcases List.mem_map.1 hp with ⟨q, hq, rfl⟩
        exact List.all_eq_true.1 hall q hq
      · exact absurd h (by simp)
    · split at h
      · next hall =>
        cases hres : f.results with
        | anon t' =>
          rw [hres] at h
          simp only [hres, resultTypes] at hr
          rw [show t = t' by simpa using hr]
          exact h
        | named rs =>
          rw [hres] at h
          simp only [hres, resultTypes] at hr
          rcases List.mem_map.1 hr with ⟨q, hq, rfl⟩
          exact List.all_eq_true.1 h q hq
      · exact absurd h (by simp)
  · intro h
    have hp : f.params.all (fun p => is_primary_type p.2) = true := by
      refine List.all_eq_true.2 fun q hq => ?_
      exact h q.2 (List.mem_append.2 (Or.inl (List.mem_map.2 ⟨q, hq, rfl⟩)))
    rw [if_pos hp]
    cases hres : f.results with
    | anon t' =>
      exact h t' (List.mem_append.2 (Or.inr (by simp [hres, resultTypes])))
    | named rs =>
      refine List.all_eq_true.2 fun q hq => ?_
      refine h q.2 (List.mem_append.2 (Or.inr ?_))
      simp only [hres, resultTypes]
      exact List.mem_map.2 ⟨q, hq, rfl⟩

theorem is_primary_func_false_of_id (f : Func) (i : Nat)
    (h : WitType.Id i ∈ funcTypes f) : is_primary_func f = false := by
  cases hfun : is_primary_func f with
  | false => rfl
  | true =>
    exact absurd ((is_primary_func_iff f).1 hfun _ h)
      (by simp [is_primary_type])

/-- C1: a function classifies as `Scalar` (`is_primary_func = true`) iff every
parameter type and every result type (anonymous single result or each named
result) is one of the primitive scalar kinds `Bool`, `Char`, `Float32`,
`Float64`, or a fixed-width integer of width 8/16/32/64; the presence of
`String` or of any compound/nominal type (`Type::Id`) anywhere among
parameters or results yields `Marshaled` (`false`).  Classification is a pure
Lean function of the signature, hence deterministic and side-effect free. -/
theorem c1_scalar_classification (f : Func) :
    (is_primary_func f = true ↔ ∀ t ∈ funcTypes f, t ∈ scalarKinds) ∧
    (∀ t ∈ funcTypes f, (t = .String ∨ ∃ i, t = .Id i) →
      is_primary_func f = false) := by
  constructor
  · rw [is_primary_func_iff]
    exact ⟨fun h t ht => (is_primary_type_iff_mem t).1 (h t ht),
           fun h t ht => (is_primary_type_iff_mem t).2 (h t ht)⟩
  · intro t ht hbad
    rcases Bool.eq_false_or_eq_true (is_primary_func f) with h | h
    · exfalso
      have := (is_primary_func_iff f).1 h t ht
      rcases hbad with rfl | ⟨i, rfl⟩ <;> simp [is_primary_type] at this
    · exact h

/-- Witness for C1 at the spec's two end-to-end examples:
`add(x: s32, y: s32) -> s32` is `Scalar` and
`concat(a: string, b: string) -> string` is `Marshaled`. -/
theorem c1_scalar_classification_witness :
    is_primary_func ⟨[("x", .S32), ("y", .S32)], .anon .S32⟩ = true ∧
    is_primary_func ⟨[("a", .String), ("b", .String)], .anon .String⟩ = false :=
  ⟨(c1_scalar_classification ⟨[("x", .S32), ("y", .S32)], .anon .S32⟩).1.mpr
      (by decide),
   (c1_scalar_classification ⟨[("a", .String), ("b", .String)], .anon .String⟩).2
      .String (by decide) (Or.inl rfl)⟩

/-- C2 fails on the code (code bug).  The store helper's own `size`/`align`
dispatch leaves both unset (`undefined`) for the `U32` and `U64` element
kinds, because the third and fourth guards compare the `size` variable
instead of `type`; and even for a kind whose entry is computed (here `S32`,
table entry 4/4), the allocator is asked for `len` bytes — the element
count — rather than `len * element_size`: the computed `size` is never
passed to `wasm_export_realloc`. -/
theorem c2_store_list_dispatch_bug :
    storeListSizeAlign "U8" 5 = (some 5, some 1) ∧
    storeListSizeAlign "S16" 5 = (some 10, some 2) ∧
    storeListSizeAlign "S32" 5 = (some 20, some 4) ∧
    storeListSizeAlign "Float64" 5 = (some 40, some 8) ∧
    storeListSizeAlign "U32" 5 = (none, none) ∧
    storeListSizeAlign "U64" 5 = (none, none) ∧
    elemSizeAlign "U32" = some (4, 4) ∧
    elemSizeAlign "U64" = some (8, 8) ∧
    elemSizeAlign "S32" = some (4, 4) ∧
    storeListAllocArgs "S32" 5 = (some 4, 5) ∧
    storeListAllocArgs "S32" 5 ≠ (some 4, 5 * 4) := by
  decide

/-- C8 fails on the code (code bug).  For the 64-bit element kinds both
helpers construct their views with `new Int64Array` / `new Uint64Array`,
names the JavaScript environment does not define (the real globals are
`BigInt64Array` / `BigUint64Array`), so storing or loading any `S64`/`U64`
list — the empty list included — throws a `ReferenceError` instead of
round-tripping; and for `U32` the store helper's allocation size and
alignment are left `undefined` (see `c2_store_list_dispatch_bug`). -/
theorem c8_list_roundtrip_64bit_ctor_missing :
    storeListViewCtor "S64" = some "Int64Array" ∧
    storeListViewCtor "U64" = some "Uint64Array" ∧
    loadListViewCtor "S64" = some "Int64Array" ∧
    loadListViewCtor "U64" = some "Uint64Array" ∧
    "Int64Array" ∉ jsGlobalTypedArrays ∧
    "Uint64Array" ∉ jsGlobalTypedArrays ∧
    storeListSizeAlign "U32" 1 = (none, none) := by
  decide

/-- C7: the string-encoding helper rejects every non-text input with a type
error, and for empty text returns the pair `(1, 0)` — the fixed, non-zero
sentinel pointer and length zero — with the state untouched: no allocation
request is issued (in particular no request of size 0). -/
theorem c7_encode_str_reject_and_empty :
    (∀ (realloc : Nat → Nat → Nat → Nat → Nat) (v : JsValue) (st : RtState),
      (∀ s, v ≠ .str s) →
      wasm_wrapper_encode_str realloc v st = (.error .typeError, st)) ∧
    (∀ (realloc : Nat → Nat → Nat → Nat → Nat) (st : RtState),
      wasm_wrapper_encode_str realloc (.str "") st = (.ok (1, 0), st)) ∧
    (1 : Nat) ≠ 0 := by
  refine ⟨fun realloc v st hv => ?_, fun realloc st => rfl, one_ne_zero⟩
  cases v with
  | str s => exact absurd rfl (hv s)
  | _ => rfl

/-- Witness for C7 at a concrete non-text input and at the empty string. -/
theorem c7_encode_str_reject_and_empty_witness :
    wasm_wrapper_encode_str (fun _ _ _ _ => 0) (.num 3) ⟨fun _ => 0, []⟩ =
      (.error .typeError, ⟨fun _ => 0, []⟩) ∧
    wasm_wrapper_encode_str (fun _ _ _ _ => 0) (.str "") ⟨fun _ => 0, []⟩ =
      (.ok (1, 0), ⟨fun _ => 0, []⟩) :=
  ⟨c7_encode_str_reject_and_empty.1 (fun _ _ _ _ => 0) (.num 3) ⟨fun _ => 0, []⟩
      (fun s h => by cases h),
   c7_encode_str_reject_and_empty.2.1 (fun _ _ _ _ => 0) ⟨fun _ => 0, []⟩⟩

/-- A compound (`Type::Id`) member anywhere in a parameter list makes the
parameter-planning loop abort with a `notImplemented` panic. -/
theorem planParams_error_of_mem_id (ps : List (String × WitType)) (n : String)
    (i : Nat) (h : (n, WitType.Id i) ∈ ps) :
    ∃ m, planParams ps = .error (.notImplemented m) := by
  induction ps with
  | nil => cases h
  | cons q qs ih =>
    rcases List.mem_cons.1 h with hq | hmem
    · exact ⟨"wrappaer for recursive types not implemented", by rw [← hq]; rfl⟩
    · rcases hq : planParam q.2 with ⟨⟨m⟩⟩ | pp
      · exact ⟨m, by simp [planParams, hq]⟩
      · rcases ih hmem with ⟨m, hm⟩
        exact ⟨m, by simp [planParams, hq, hm]⟩

/-- C3 fails on the code (code bug, flagged in the source by the comments
`// TODO: decode string` and `// TODO: return result`).  For a marshaled
function whose single anonymous result is a primary scalar the generator
emits no lifting code, yet the wrapper unconditionally ends with
`return js_func_result;`, a variable only the string-result lifting
declares — so instead of returning the export's value the call throws a
`ReferenceError` (after having invoked the export and the release hook).
Evaluated here at `f(s: string) -> s32` called with `"hi"` against an
export returning 42. -/
theorem c3_scalar_result_wrapper_throws :
    planWrapper ⟨[("s", .String)], .anon .S32⟩ = .ok ([.string], .scalar) ∧
    (runPlan
        ⟨fun _ _ _ _ => 64, fun _ m => (42, m), fun _ => true, fun _ => ""⟩
        "f" [.string] .scalar [.str "hi"] ⟨fun _ => 0, []⟩).1 =
      .error (.referenceError "js_func_result") ∧
    (runPlan
        ⟨fun _ _ _ _ => 64, fun _ m => (42, m), fun _ => true, fun _ => ""⟩
        "f" [.string] .scalar [.str "hi"] ⟨fun _ => 0, []⟩).2.trace =
      [.allocReq 0 0 1 2, .callExport "f" [.num 64, .num 2],
       .postReturn "cabi_post_f" 42] := by
  refine ⟨rfl, rfl, rfl⟩

/-- C4 fails on the code (code bug; the source's own comment at `lib.rs`
lines 159-160 says the helpers are needed "if there is any function that
accepts or returns a string").  The scan breaks at the first function with
any string usage, so in the export set
`[first(s: string) -> u32, second() -> string]` the result flag stays
`false`: `second` has a string result, yet `export_funcs` emits no
`TextDecoder`/`wasm_wrapper_decode_str` block, while still generating
`second`'s wrapper, which calls `wasm_wrapper_decode_str`. -/
theorem c4_helper_scan_stops_early :
    (∃ nf ∈ ([("first", ⟨[("s", .String)], .anon .U32⟩),
              ("second", ⟨[], .anon .String⟩)] : List (String × Func)),
        WitType.String ∈ resultTypes nf.2.results) ∧
    scanStrings [("first", ⟨[("s", .String)], .anon .U32⟩),
                 ("second", ⟨[], .anon .String⟩)] = (true, false) ∧
    export_funcs [("first", ⟨[("s", .String)], .anon .U32⟩),
                  ("second", ⟨[], .anon .String⟩)] =
      .ok ⟨true, true, false,
           [.wrapper "first" [.string] .scalar, .wrapper "second" [] .string]⟩ := by
  refine ⟨by decide, rfl, rfl⟩

/-- C9 as stated fails on the code: generation does abort on unsupported
type combinations, but via fixed-message `todo!` panics that do not name
the offending type — two functions whose offending compound parameters are
different types produce the identical message. -/
theorem c9_counterexample :
    exportBinding "f" ⟨[("x", .Id 0)], .anon .S32⟩ =
      .error (.notImplemented "wrappaer for recursive types not implemented") ∧
    exportBinding "g" ⟨[("y", .Id 7)], .anon .U64⟩ =
      .error (.notImplemented "wrappaer for recursive types not implemented") :=
  ⟨rfl, rfl⟩

/-- C9 amended: for every exported function containing a type combination
the engine cannot flatten — a compound/nominal (`Type::Id`) parameter, a
compound anonymous result, or named results containing a compound type —
generation fails at generation time with an explicit "not implemented"
panic (whose message, however, does not name the offending type), and no
binding is emitted for that function. -/
theorem c9_unsupported_types_abort (name : String) (f : Func)
    (h : (∃ n i, (n, WitType.Id i) ∈ f.params) ∨
         (∃ i, f.results = .anon (.Id i)) ∨
         (∃ rs, f.results = .named rs ∧ ∃ n i, (n, WitType.Id i) ∈ rs)) :
    (∃ m, exportBinding name f = .error (.notImplemented m)) ∧
    ∀ b, exportBinding name f ≠ .ok b := by
  have hmain : ∃ m, exportBinding name f = .error (.notImplemented m) := by
    have hnp : is_primary_func f = false := by
      rcases h with ⟨n, i, hmem⟩ | ⟨i, hres⟩ | ⟨rs, hres, n, i, hmem⟩
      · exact is_primary_func_false_of_id f i
          (List.mem_append.2 (Or.inl (List.mem_map.2 ⟨(n, .Id i), hmem, rfl⟩)))
      · exact is_primary_func_false_of_id f i
          (List.mem_append.2 (Or.inr (by simp [hres, resultTypes])))
      · refine is_primary_func_false_of_id f i (List.mem_append.2 (Or.inr ?_))
        simp only [hres, resultTypes]
        exact List.mem_map.2 ⟨(n, .Id i), hmem, rfl⟩
    unfold exportBinding
    rw [hnp]
    simp only [Bool.false_eq_true, if_false]
    rcases hps : planParams f.params with ⟨⟨m⟩⟩ | pps
    · exact ⟨m, by simp [planWrapper, hps, bind, Except.bind]⟩
    · have hid : ∀ n i, (n, WitType.Id i) ∉ f.params := by
        intro n i hmem
        rcases planParams_error_of_mem_id f.params n i hmem with ⟨m, hm⟩
        rw [hm] at hps
        cases hps
      rcases h with ⟨n, i, hmem⟩ | ⟨i, hres⟩ | ⟨rs, hres, n, i, hmem⟩
      · exact absurd hmem (hid n i)
      · exact ⟨"multiple returning recursive types not implemented",
          by simp [planWrapper, hps, hres, planResults, bind, Except.bind]⟩
      · exact ⟨"multiple return values with recursive types not implemented",
          by simp [planWrapper, hps, hres, planResults, bind, Except.bind]⟩
  rcases hmain with ⟨m, hm⟩
  exact ⟨⟨m, hm⟩, fun b hb => by rw [hm] at hb; cases hb⟩

/-- Witness for the amended C9 at a function with a compound parameter. -/
theorem c9_unsupported_types_abort_witness :
    (∃ m, exportBinding "f" ⟨[("x", .Id 0)], .anon .S32⟩ =
      .error (.notImplemented m)) ∧
    ∀ b, exportBinding "f" ⟨[("x", .Id 0)], .anon .S32⟩ ≠ .ok b :=
  c9_unsupported_types_abort "f" ⟨[("x", .Id 0)], .anon .S32⟩
    (Or.inl ⟨"x", 0, by decide⟩)

/-- C10: generation completes (reaches `finish`, which pushes the output
file) only for worlds in which every imported function is grouped under an
interface, no interface appears in export position, and no type
definitions are exported; conversely, any world with a top-level imported
function, an exported interface, or an exported type makes the generator
abort before producing any output. -/
theorem c10_generation_aborts (w : World) :
    (∀ out, generateWorld w = .ok out →
      w.importFuncs = [] ∧ w.exportInterfaces = [] ∧ w.exportTypes = []) ∧
    ((w.importFuncs ≠ [] ∨ w.exportInterfaces ≠ [] ∨ w.exportTypes ≠ []) →
      ∃ e, generateWorld w = .error e) := by
  constructor
  · intro out hout
    unfold generateWorld at hout
    by_cases h1 : w.importFuncs.isEmpty = true
    · rw [if_pos h1] at hout
      split at hout
      · cases hout
      · by_cases h2 : w.exportInterfaces.isEmpty = true
        · rw [if_pos h2] at hout
          by_cases h3 : w.exportTypes.isEmpty = true
          · exact ⟨List.isEmpty_iff.1 h1, List.isEmpty_iff.1 h2,
              List.isEmpty_iff.1 h3⟩
          · rw [if_neg h3] at hout; cases hout
        · rw [if_neg h2] at hout; cases hout
    · rw [if_neg h1] at hout; cases hout
  · intro h
    by_cases h1 : w.importFuncs.isEmpty = true
    · rcases hexp : export_funcs w.exportFuncs with e | code
      · exact ⟨e, by simp [generateWorld, h1, hexp]⟩
      · by_cases h2 : w.exportInterfaces.isEmpty = true
        · by_cases h3 : w.exportTypes.isEmpty = true
          · exfalso
            rcases h with h | h | h
            · exact h (List.isEmpty_iff.1 h1)
            · exact h (List.isEmpty_iff.1 h2)
            · exact h (List.isEmpty_iff.1 h3)
          · exact ⟨.notImplemented "export_types() not implemented",
              by simp [generateWorld, h1, hexp, h2, h3]⟩
        · exact ⟨.notImplemented "export_interface() not implemented",
            by simp [generateWorld, h1, hexp, h2]⟩
    · exact ⟨.notImplemented "import_funcs() not implemented",
        by simp [generateWorld, h1]⟩

/-- Witness for C10 at a world exporting a type definition. -/
theorem c10_generation_aborts_witness :
    ∃ e, generateWorld ⟨"w", [], [], [], [], [("t", 0)]⟩ = .error e :=
  (c10_generation_aborts ⟨"w", [], [], [], [], [("t", 0)]⟩).2
    (Or.inr (Or.inr (by decide)))

theorem writeBytes_apply_lt (bs : List Nat) (mem : Nat → Nat) (p q : Nat)
    (h : q < p) : writeBytes mem p bs q = mem q := by
  induction bs generalizing mem p with
  | nil => rfl
  | cons b bs ih =>
    rw [writeBytes, ih _ (p + 1) (Nat.lt_succ_of_lt h)]
    exact if_neg (Nat.ne_of_lt h)

theorem utf8Bytes_lt_256 (s : String) : ∀ b ∈ utf8Bytes s, b < 256 := by
  intro b hb
  rcases List.mem_map.1 hb with ⟨u, _, rfl⟩
  simpa using u.toNat_lt_size

theorem readBytes_writeBytes (bs : List Nat) (hb : ∀ b ∈ bs, b < 256)
    (mem : Nat → Nat) (p : Nat) :
    readBytes (writeBytes mem p bs) p bs.length = bs := by
  induction bs generalizing mem p with
  | nil => rfl
  | cons b bs ih =>
    have h1 : writeBytes (fun a => if a = p then b else mem a) (p + 1) bs p = b := by
      rw [writeBytes_apply_lt bs _ (p + 1) p (Nat.lt_succ_self p)]
      simp
    rw [List.length_cons, writeBytes, readBytes, h1,
      Nat.mod_eq_of_lt (hb b (List.mem_cons_self b bs)),
      ih (fun x hx => hb x (List.mem_cons_of_mem b hx))]

theorem string_length_ne_zero {s : String} (hs : s ≠ "") : s.length ≠ 0 := by
  intro h
  refine hs (String.ext ?_)
  have hdata : s.data.length = 0 := h
  exact (List.length_eq_zero.1 hdata).trans rfl

theorem andThenSlots_consSlot (v : JsValue)
    (r : Except RtError (List JsValue) × RtState)
    (k : RtState → Except RtError (List JsValue) × RtState) :
    andThenSlots (consSlot v r) k = consSlot v (andThenSlots r k) := by
  rcases r with ⟨r1, st₁⟩
  cases r1 with
  | error e => rfl
  | ok s₁ =>
    show (match k st₁ with
          | (.ok s₂, st₂) => (Except.ok ((v :: s₁) ++ s₂), st₂)
          | (.error e, st₂) => (.error e, st₂)) = _
    rcases hk : k st₁ with ⟨r2, st₂⟩
    cases r2 <;> simp [consSlot, andThenSlots, hk]

theorem andThenSlots_ok_nil (st : RtState)
    (k : RtState → Except RtError (List JsValue) × RtState) :
    andThenSlots (.ok [], st) k = k st := by
  show (match k st with
        | (.ok s₂, st₂) => (Except.ok ([] ++ s₂), st₂)
        | (.error e, st₂) => (.error e, st₂)) = _
  rcases hk : k st with ⟨r2, st₂⟩
  cases r2 <;> simp

/-- Lowering a concatenation of parameter plans against a positionally
matching split of the argument list runs the two halves in sequence. -/
theorem runLower_append (inst : ModuleInstance) (ps₁ ps₂ : List ParamPlan)
    (vs₁ vs₂ : List JsValue) (st : RtState) (h : vs₁.length = ps₁.length) :
    runLower inst (ps₁ ++ ps₂) (vs₁ ++ vs₂) st =
      andThenSlots (runLower inst ps₁ vs₁ st) (runLower inst ps₂ vs₂) := by
  induction ps₁ generalizing vs₁ st with
  | nil =>
    have hv : vs₁ = [] := List.eq_nil_of_length_eq_zero h
    subst hv
    simp only [List.nil_append, runLower]
    exact (andThenSlots_ok_nil st (runLower inst ps₂ vs₂)).symm
  | cons p ps ih =>
    rcases vs₁ with _ | ⟨v, vs⟩
    · simp at h
    · have h' : vs.length = ps.length := by simpa using h
      cases p with
      | scalar =>
        simp only [List.cons_append, runLower, List.tail_cons, List.headD_cons,
          List.append_eq]
        rw [ih vs st h', andThenSlots_consSlot]
      | string =>
        simp only [List.cons_append, runLower, List.tail_cons, List.headD_cons,
          List.append_eq]
        rcases he : wasm_wrapper_encode_str inst.realloc v st with ⟨re, st'⟩
        cases re with
        | error e => rfl
        | ok pl =>
          rcases pl with ⟨ptr, len⟩
          have key : consSlot (.num ptr) (consSlot (.num len)
              (runLower inst (ps ++ ps₂) (vs ++ vs₂) st')) =
              andThenSlots (consSlot (.num ptr) (consSlot (.num len)
                (runLower inst ps vs st'))) (runLower inst ps₂ vs₂) := by
            rw [ih vs st' h', andThenSlots_consSlot, andThenSlots_consSlot]
          exact key

theorem encode_str_nonempty (realloc : Nat → Nat → Nat → Nat → Nat)
    (s : String) (st : RtState) (hs : s ≠ "") :
    wasm_wrapper_encode_str realloc (.str s) st =
      (.ok (realloc 0 0 1 (utf8Bytes s).length, (utf8Bytes s).length),
       ⟨writeBytes st.mem (realloc 0 0 1 (utf8Bytes s).length) (utf8Bytes s),
        st.trace ++ [.allocReq 0 0 1 (utf8Bytes s).length]⟩) := by
  simp only [wasm_wrapper_encode_str]
  rw [if_neg (string_length_ne_zero hs)]

theorem runLower_string_cons (inst : ModuleInstance) (post : List ParamPlan)
    (vs : List JsValue) (s : String) (st : RtState) (hs : s ≠ "") :
    runLower inst (.string :: post) (.str s :: vs) st =
      consSlot (.num (inst.realloc 0 0 1 (utf8Bytes s).length))
        (consSlot (.num (utf8Bytes s).length)
          (runLower inst post vs
            ⟨writeBytes st.mem (inst.realloc 0 0 1 (utf8Bytes s).length)
               (utf8Bytes s),
             st.trace ++ [.allocReq 0 0 1 (utf8Bytes s).length]⟩)) := by
  simp only [runLower, List.headD_cons, List.tail_cons,
    encode_str_nonempty inst.realloc s st hs]

theorem andThenSlots_ok (S : List JsValue) (st : RtState)
    (k : RtState → Except RtError (List JsValue) × RtState) :
    andThenSlots (.ok S, st) k =
      match k st with
      | (.ok s₂, st₂) => (.ok (S ++ s₂), st₂)
      | (.error e, st₂) => (.error e, st₂) := rfl

/-- C5: in a marshaled wrapper, a string parameter with non-zero encoded
byte length is UTF-8-encoded; the wrapper requests exactly the encoded byte
length at alignment 1 from the allocator export
(`wasm_export_realloc(0, 0, 1, len)` — the `allocReq 0 0 1 len` event),
copies the encoded bytes into the returned region (reading the region back
yields exactly the bytes), and contributes the pair as exactly two
consecutive flattened slots, pointer first, placed after the slots of the
preceding parameters and before those of the following ones (scalar
parameters contribute one slot each by `runLower`'s `.scalar` equation);
finally, whenever lowering succeeds, the wrapper invokes the underlying
export with precisely that slot list, in parameter order. -/
theorem c5_string_param_lowering
    (inst : ModuleInstance) (name : String) (rp : ResultPlan)
    (pre post : List ParamPlan) (argsPre argsPost : List JsValue)
    (s : String) (st st₁ : RtState) (slots₁ : List JsValue)
    (hlen : argsPre.length = pre.length)
    (hs : s ≠ "")
    (hpre : runLower inst pre argsPre st = (.ok slots₁, st₁)) :
    (runLower inst (pre ++ ParamPlan.string :: post)
        (argsPre ++ JsValue.str s :: argsPost) st =
      andThenSlots
        (.ok (slots₁ ++ [JsValue.num (inst.realloc 0 0 1 (utf8Bytes s).length),
                         JsValue.num (utf8Bytes s).length]),
         ⟨writeBytes st₁.mem (inst.realloc 0 0 1 (utf8Bytes s).length)
            (utf8Bytes s),
          st₁.trace ++ [Event.allocReq 0 0 1 (utf8Bytes s).length]⟩)
        (runLower inst post argsPost)) ∧
    readBytes
        (writeBytes st₁.mem (inst.realloc 0 0 1 (utf8Bytes s).length)
          (utf8Bytes s))
        (inst.realloc 0 0 1 (utf8Bytes s).length) (utf8Bytes s).length =
      utf8Bytes s ∧
    (∀ slotsAll stL,
      runLower inst (pre ++ ParamPlan.string :: post)
          (argsPre ++ JsValue.str s :: argsPost) st = (.ok slotsAll, stL) →
      ∃ rest,
        (runPlan inst name (pre ++ ParamPlan.string :: post) rp
            (argsPre ++ JsValue.str s :: argsPost) st).2.trace =
          stL.trace ++ Event.callExport name slotsAll :: rest) := by
  refine ⟨?_, readBytes_writeBytes (utf8Bytes s) (utf8Bytes_lt_256 s) st₁.mem _, ?_⟩
  · rw [runLower_append inst pre (ParamPlan.string :: post) argsPre
      (JsValue.str s :: argsPost) st hlen, hpre, andThenSlots_ok,
      runLower_string_cons inst post argsPost s st₁ hs, andThenSlots_ok]
    rcases hr : runLower inst post argsPost
        ⟨writeBytes st₁.mem (inst.realloc 0 0 1 (utf8Bytes s).length)
           (utf8Bytes s),
         st₁.trace ++ [Event.allocReq 0 0 1 (utf8Bytes s).length]⟩
      with ⟨r2, st₂⟩
    cases r2 <;> simp [consSlot]
  · intro slotsAll stL hall
    unfold runPlan
    rw [hall]
    rcases hf : inst.func slotsAll stL.mem with ⟨res, mem1⟩
    cases rp with
    | scalar =>
      by_cases hh : inst.hasExport ("cabi_post_" ++ name) = true
      · exact ⟨[Event.postReturn ("cabi_post_" ++ name) res],
          by simp [liftResult, hh, hf]⟩
      · exact ⟨[], by simp [liftResult, hh, hf]⟩
    | string =>
      by_cases h0 : res < 0
      · exact ⟨[], by simp [liftResult, h0, hf]⟩
      · by_cases h1 : getInt32LE mem1 res.toNat < 0 ∨
            getInt32LE mem1 (res.toNat + 4) < 0
        · exact ⟨[], by simp [liftResult, h0, h1, hf]⟩
        · by_cases hh : inst.hasExport ("cabi_post_" ++ name) = true
          · refine ⟨[Event.decodeStr (readBytes mem1
                (getInt32LE mem1 res.toNat).toNat
                (getInt32LE mem1 (res.toNat + 4)).toNat),
              Event.postReturn ("cabi_post_" ++ name) res], ?_⟩
            simp [liftResult, h0, h1, hh, hf, List.lookup]
          · refine ⟨[Event.decodeStr (readBytes mem1
                (getInt32LE mem1 res.toNat).toNat
                (getInt32LE mem1 (res.toNat + 4)).toNat)], ?_⟩
            simp [liftResult, h0, h1, hh, hf, List.lookup]

/-- C6: for a generated wrapper with a single string result (whenever the
generator produced one), a call that lowers successfully invokes the export,
reads two little-endian 4-byte words at offsets 0 and 4 from the pointer the
export returned — data pointer first, then byte length — decodes that byte
range, and yields the decoded text; the release hook
`cabi_post_<function name>`, if the module exports it, is invoked exactly
once, with the raw result handle as its sole argument, after the decode and
as the last event before the wrapper returns (the trace below ends with the
single `postReturn` event exactly when the hook is exported). -/
theorem c6_string_result_lifting
    (inst : ModuleInstance) (name : String) (pps : List ParamPlan)
    (args : List JsValue) (st0 st1 : RtState) (slots : List JsValue)
    (res : Int) (mem1 : Nat → Nat)
    (hlower : runLower inst pps args st0 = (.ok slots, st1))
    (hfunc : inst.func slots st1.mem = (res, mem1))
    (hres : 0 ≤ res)
    (hp : 0 ≤ getInt32LE mem1 res.toNat)
    (hl : 0 ≤ getInt32LE mem1 (res.toNat + 4)) :
    runPlan inst name pps .string args st0 =
      (.ok (.str (inst.decode (readBytes mem1 (getInt32LE mem1 res.toNat).toNat
          (getInt32LE mem1 (res.toNat + 4)).toNat))),
       ⟨mem1,
        st1.trace ++ [Event.callExport name slots] ++
          [Event.decodeStr (readBytes mem1 (getInt32LE mem1 res.toNat).toNat
            (getInt32LE mem1 (res.toNat + 4)).toNat)] ++
          (if inst.hasExport ("cabi_post_" ++ name) then
            [Event.postReturn ("cabi_post_" ++ name) res] else [])⟩) := by
  have h0 : ¬ res < 0 := not_lt.2 hres
  have h1 : ¬ (getInt32LE mem1 res.toNat < 0 ∨
      getInt32LE mem1 (res.toNat + 4) < 0) :=
    not_or.2 ⟨not_lt.2 hp, not_lt.2 hl⟩
  by_cases hh : inst.hasExport ("cabi_post_" ++ name) = true
  · simp [runPlan, hlower, hfunc, liftResult, h0, h1, hh, List.lookup]
  · simp [runPlan, hlower, hfunc, liftResult, h0, h1, hh, List.lookup]

/-- Witness for C6: a parameterless export whose return value 0 points at a
return area holding data pointer 8 and byte length 1, with byte 65 at
address 8; the wrapper decodes via the captured decoder and fires the
(exported) release hook exactly once, after the decode. -/
theorem c6_string_result_lifting_witness :
    runPlan inst6 "greet" [] .string [] ⟨mem6, []⟩ =
      (.ok (.str "A"),
       ⟨mem6ret, [Event.callExport "greet" [], Event.decodeStr [65],
                  Event.postReturn "cabi_post_greet" 0]⟩) :=
  c6_string_result_lifting inst6 "greet" [] [] ⟨mem6, []⟩ ⟨mem6, []⟩ [] 0 mem6ret
    rfl rfl (by decide) (by decide) (by decide)

/-- Witness for C5: lowering `(x: s32, s: string)` at arguments `(7, "hi")`
encodes two UTF-8 bytes, requests 2 bytes at alignment 1, and produces the
slots `[7, ptr, 2]` with the pointer-length pair consecutive after the
scalar slot. -/
theorem c5_string_param_lowering_witness :
    runLower inst5 [ParamPlan.scalar, ParamPlan.string]
        [JsValue.num 7, JsValue.str "hi"] rt0 =
      andThenSlots
        (.ok ([JsValue.num 7] ++ [JsValue.num 100, JsValue.num 2]),
         ⟨writeBytes rt0.mem 100 (utf8Bytes "hi"),
          rt0.trace ++ [Event.allocReq 0 0 1 2]⟩)
        (runLower inst5 [] []) :=
  (c5_string_param_lowering inst5 "f" .scalar [ParamPlan.scalar] []
      [JsValue.num 7] [] "hi" rt0 rt0 [JsValue.num 7] rfl (by decide) rfl).1

end JsGen
